import Mathlib

/-!
Verification of the binary wire-format decoding and row-streaming engine of
src/postgres-result.cpp (namespace db::postgres).

Shallow-embedding conventions:
- byte buffers are List Nat, each entry one byte value;
- machine integers are Int with explicit two-complement reinterpretation of
  the big-endian byte reads (be16toh / be32toh / be64toh followed by a signed
  cast in the C++ code);
- IEEE floats are represented by the integer bit pattern they are
  reinterpreted from, which is exactly how the C++ code produces them
  (a bit reinterpretation of the integer read, never a numeric cast);
- the debug build is modelled (NDEBUG undefined, the default CMake
  configuration): a failing assert aborts the process, modelled as the
  error outcome PgError.assertFailed; assert_oid is active;
- a C++ exception (ExecutionException) is modelled as the error outcome
  PgError.executionFailed carrying the diagnostic text;
- the unchecked pointer reads of the C++ code have undefined behaviour on a
  short buffer; the none / PgError.truncated outcomes model that contract
  violation, no claim depends on them.
-/

-- ---------------------------------------------------------------------------
-- Wire reader: fixed-width big-endian reads over a byte-list cursor
-- ---------------------------------------------------------------------------

/-- Spec-side encoder: big-endian bytes of a natural number on n bytes, most
significant byte first; the value is taken modulo 256 ^ n. -/
def natToBE : Nat → Nat → List Nat
  | 0, _ => []
  | n + 1, v => natToBE n (v / 256) ++ [v % 256]

/-- Two-complement reinterpretation of a w-bit unsigned value, as performed by
reading through a signed intN_t pointer after beNtoh. -/
def twosComp (w : Nat) (u : Nat) : Int :=
  if u < 2 ^ (w - 1) then (u : Int) else (u : Int) - 2 ^ w

/-- Accumulating big-endian read of n bytes from the cursor. The C++ code
performs this read by pointer reinterpretation with no bounds check; the none
outcome models the undefined behaviour on a short buffer. -/
def readBEAux : Nat → Nat → List Nat → Option (Nat × List Nat)
  | 0, acc, buf => some (acc, buf)
  | _ + 1, _, [] => none
  | n + 1, acc, b :: rest => readBEAux n (acc * 256 + b) rest

/-- Embeds the fixed-width big-endian integer reads of the source
(read of int16_t / int32_t / int64_t), returning the decoded signed value and
the advanced cursor. -/
def readBE (n : Nat) (buf : List Nat) : Option (Int × List Nat) :=
  match readBEAux n 0 buf with
  | some (u, rest) => some (twosComp (8 * n) u, rest)
  | none => none

/-- Embeds the bool specialization of read: one byte, reinterpreted as bool
(the wire sends 0 or 1; a nonzero byte reads as true). -/
def read_bool : List Nat → Option (Bool × List Nat)
  | [] => none
  | b :: rest => some (b != 0, rest)

/-- Embeds the int16_t specialization of read (be16toh). -/
def read_int16 : List Nat → Option (Int × List Nat) := readBE 2

/-- Embeds the int32_t specialization of read (be32toh). -/
def read_int32 : List Nat → Option (Int × List Nat) := readBE 4

/-- Embeds the int64_t specialization of read (be64toh). -/
def read_int64 : List Nat → Option (Int × List Nat) := readBE 8

/-- An IEEE 754 single-precision value, represented by the int32 bit pattern
the C++ code reinterprets it from. -/
structure float32 where
  bits : Int
deriving DecidableEq

/-- An IEEE 754 double-precision value, represented by the int64 bit pattern
the C++ code reinterprets it from. -/
structure float64 where
  bits : Int
deriving DecidableEq

/-- Embeds the float specialization of read: the int32 read, reinterpreted as
the bit pattern of the float (not a numeric cast). -/
def read_float (buf : List Nat) : Option (float32 × List Nat) :=
  (read_int32 buf).map fun p => (⟨p.1⟩, p.2)

/-- Embeds the double specialization of read: the int64 read, reinterpreted as
the bit pattern of the double (not a numeric cast). -/
def read_double (buf : List Nat) : Option (float64 × List Nat) :=
  (read_int64 buf).map fun p => (⟨p.1⟩, p.2)

-- ---------------------------------------------------------------------------
-- Temporal value types (from the public header, which is not under src/)
-- ---------------------------------------------------------------------------

/-- Modelled from the spec: date value type, seconds since the Unix epoch,
rebased from the Y2000 wire epoch (the header declaring date_t is not part of
the sources). -/
structure date_t where
  epoch_date : Int
deriving DecidableEq

/-- Modelled from the spec: time value type, microseconds since midnight. -/
structure time_t where
  time : Int
deriving DecidableEq

/-- Modelled from the spec: time-with-zone value type, microseconds plus a
zone offset. -/
structure timetz_t where
  time : Int
  offset : Int
deriving DecidableEq

/-- Modelled from the spec: timestamp value type, microseconds since the Unix
epoch, rebased from the Y2000 wire epoch. -/
structure timestamp_t where
  epoch_time : Int
deriving DecidableEq

/-- Modelled from the spec: timestamp-with-zone value type, microseconds since
the Unix epoch, rebased from the Y2000 wire epoch. -/
structure timestamptz_t where
  epoch_time : Int
deriving DecidableEq

/-- Modelled from the spec: interval value type, microseconds plus day and
month counts. -/
structure interval_t where
  time : Int
  days : Int
  months : Int
deriving DecidableEq

/-- Modelled from the spec: day count from the Unix epoch to the Y2000 (J2000)
epoch, used by the date decoder for epoch rebasing (the header defining the
constant is not part of the sources). -/
def DAYS_UNIX_TO_J2000_EPOCH : Int := 10957

/-- Modelled from the spec: microsecond count from the Unix epoch to the Y2000
(J2000) epoch, used by the timestamp decoders for epoch rebasing. -/
def MICROSEC_UNIX_TO_J2000_EPOCH : Int := 946684800000000

/-- Embeds the date_t specialization of read:
(wire int32 + DAYS_UNIX_TO_J2000_EPOCH) * 86400. -/
def read_date (buf : List Nat) : Option (date_t × List Nat) :=
  (read_int32 buf).map fun p => (⟨(p.1 + DAYS_UNIX_TO_J2000_EPOCH) * 86400⟩, p.2)

/-- Embeds the timestamp_t specialization of read:
wire int64 + MICROSEC_UNIX_TO_J2000_EPOCH. -/
def read_timestamp (buf : List Nat) : Option (timestamp_t × List Nat) :=
  (read_int64 buf).map fun p => (⟨p.1 + MICROSEC_UNIX_TO_J2000_EPOCH⟩, p.2)

/-- Embeds the timestamptz_t specialization of read:
wire int64 + MICROSEC_UNIX_TO_J2000_EPOCH. -/
def read_timestamptz (buf : List Nat) : Option (timestamptz_t × List Nat) :=
  (read_int64 buf).map fun p => (⟨p.1 + MICROSEC_UNIX_TO_J2000_EPOCH⟩, p.2)

/-- Embeds the timetz_t specialization of read: a wire int64 of microseconds
followed by a wire int32 zone offset, in that order. -/
def read_timetz (buf : List Nat) : Option (timetz_t × List Nat) :=
  (read_int64 buf).bind fun p =>
    (read_int32 p.2).map fun q => (⟨p.1, q.1⟩, q.2)

/-- Embeds the time_t specialization of read: the raw wire int64 of
microseconds, unchanged. -/
def read_time (buf : List Nat) : Option (time_t × List Nat) :=
  (read_int64 buf).map fun p => (⟨p.1⟩, p.2)

/-- Embeds the interval_t specialization of read: a wire int64 of microseconds
followed by two wire int32 fields, assigned to days then months in that
order. -/
def read_interval (buf : List Nat) : Option (interval_t × List Nat) :=
  (read_int64 buf).bind fun p =>
    (read_int32 p.2).bind fun q =>
      (read_int32 q.2).map fun r => (⟨p.1, q.1, r.1⟩, r.2)

-- ---------------------------------------------------------------------------
-- Wire type tags (externally-defined constants from libpq pg_type.h)
-- ---------------------------------------------------------------------------

def BOOLOID : Int := 16
def BYTEAOID : Int := 17
def CHAROID : Int := 18
def NAMEOID : Int := 19
def INT8OID : Int := 20
def INT2OID : Int := 21
def INT4OID : Int := 23
def TEXTOID : Int := 25
def FLOAT4OID : Int := 700
def FLOAT8OID : Int := 701
def BPCHAROID : Int := 1042
def VARCHAROID : Int := 1043
def DATEOID : Int := 1082
def TIMEOID : Int := 1083
def TIMESTAMPOID : Int := 1114
def TIMESTAMPTZOID : Int := 1184
def INTERVALOID : Int := 1186
def TIMETZOID : Int := 1266

-- ---------------------------------------------------------------------------
-- Error outcomes
-- ---------------------------------------------------------------------------

/-- Failure outcomes of the embedded operations. assertFailed models a failing
C assert (debug-build abort); typeMismatch models the assert_oid diagnostic,
which carries only the C++ type suggested for the server-reported tag;
executionFailed models a thrown ExecutionException carrying the connection
diagnostic text; truncated models an out-of-buffer read (undefined behaviour
in the C++ code). -/
inductive PgError where
  | typeMismatch (hint : String)
  | unsupportedDim
  | assertFailed
  | truncated
  | executionFailed (message : String)
deriving DecidableEq

/-- Embeds the switch table of assert_oid: the C++ accessor type suggested for
a server-reported tag; none for an unsupported tag (the default branch of the
switch executes assert(false) before any message is printed). -/
def cppTypeHint (expected : Int) : Option String :=
  if expected = BOOLOID then some "std::vector<uint_8>"
  else if expected = BYTEAOID then some "char"
  else if expected = CHAROID then some "std::string"
  else if expected = NAMEOID then some "std::string"
  else if expected = INT8OID then some "int64_t"
  else if expected = INT2OID then some "int16_t"
  else if expected = INT4OID then some "int32_t"
  else if expected = TEXTOID then some "std::string"
  else if expected = FLOAT4OID then some "float"
  else if expected = FLOAT8OID then some "double"
  else if expected = BPCHAROID then some "std::string"
  else if expected = VARCHAROID then some "std::string"
  else if expected = DATEOID then some "db::postgres::date_t"
  else if expected = TIMEOID then some "db::postgres::time_t"
  else if expected = TIMESTAMPOID then some "db::postgres::timestamp_t"
  else if expected = TIMESTAMPTZOID then some "db::postgres::timestamptz_t"
  else if expected = INTERVALOID then some "db::postgres::interval_t"
  else if expected = TIMETZOID then some "db::postgres::timetz_t"
  else none

/-- The error produced by assert_oid on a mismatch: the diagnostic names only
the C++ type looked up for the first argument (the server-reported tag) before
the assert(false) abort; an unsupported tag aborts with no suggestion. -/
def oidMismatchError (expected : Int) : PgError :=
  match cppTypeHint expected with
  | some h => .typeMismatch h
  | none => .assertFailed

/-- Embeds assert_oid(expected, actual) of the debug build: no-op when the two
tags agree, otherwise the abort carrying the lookup of the first argument. -/
def assert_oid (expected actual : Int) : Except PgError Unit :=
  if expected = actual then .ok () else .error (oidMismatchError expected)

-- ---------------------------------------------------------------------------
-- Column model (one column of the current single-row PGresult)
-- ---------------------------------------------------------------------------

/-- One column of the currently held single-tuple result: the server-reported
type tag (PQftype), the null flag (PQgetisnull) and the raw value bytes. -/
structure Column where
  oid : Int
  null : Bool
  bytes : List Nat
deriving DecidableEq

/-- PQftype of the column. -/
def pqFtype (c : Column) : Int := c.oid

/-- PQgetisnull of the column. -/
def pqGetIsNull (c : Column) : Bool := c.null

/-- PQgetvalue of the column: libpq returns an empty string for a null
column. -/
def pqGetValue (c : Column) : List Nat := if c.null then [] else c.bytes

/-- PQgetlength of the column: zero for a null column. -/
def pqGetLength (c : Column) : Nat := if c.null then 0 else c.bytes.length

/-- Embeds read(pgresult, oid, column, defVal): assert_oid on the
server-reported tag first, then the null test returning the default, then the
byte decode of the column value. -/
def read_typed {α : Type} (rd : List Nat → Option (α × List Nat)) (oid : Int)
    (c : Column) (defVal : α) : Except PgError α :=
  match assert_oid (pqFtype c) oid with
  | .error e => .error e
  | .ok _ =>
    if pqGetIsNull c then .ok defVal
    else
      match rd (pqGetValue c) with
      | some (v, _) => .ok v
      | none => .error .truncated

/-- Embeds the bool specialization of Row::get. -/
def Row.get_bool (c : Column) : Except PgError Bool :=
  read_typed read_bool BOOLOID c false

/-- Embeds the int16_t specialization of Row::get. -/
def Row.get_int16 (c : Column) : Except PgError Int :=
  read_typed read_int16 INT2OID c 0

/-- Embeds the int32_t specialization of Row::get. -/
def Row.get_int32 (c : Column) : Except PgError Int :=
  read_typed read_int32 INT4OID c 0

/-- Embeds the int64_t specialization of Row::get. -/
def Row.get_int64 (c : Column) : Except PgError Int :=
  read_typed read_int64 INT8OID c 0

/-- Embeds the float specialization of Row::get. -/
def Row.get_float (c : Column) : Except PgError float32 :=
  read_typed read_float FLOAT4OID c ⟨0⟩

/-- Embeds the double specialization of Row::get. -/
def Row.get_double (c : Column) : Except PgError float64 :=
  read_typed read_double FLOAT8OID c ⟨0⟩

/-- Embeds the std::string specialization of Row::get: no assert_oid call, a
null column gives the empty string, otherwise the raw PQgetlength bytes of the
value are returned as the string. -/
def Row.get_string (c : Column) : Except PgError (List Nat) :=
  if pqGetIsNull c then .ok [] else .ok (pqGetValue c)

/-- Embeds the char specialization of Row::get: no assert_oid call, a null
column gives the zero character, otherwise the single value byte after an
assert on the length. -/
def Row.get_char (c : Column) : Except PgError Nat :=
  if pqGetIsNull c then .ok 0
  else if pqGetLength c = 1 then .ok ((pqGetValue c).headD 0)
  else .error .assertFailed

/-- Embeds the bytea specialization of Row::get: assert_oid, then the raw value
bytes with no null test (a null column reads as the empty value). -/
def Row.get_bytea (c : Column) : Except PgError (List Nat) :=
  match assert_oid (pqFtype c) BYTEAOID with
  | .error e => .error e
  | .ok _ => .ok (pqGetValue c)

/-- Embeds the date_t specialization of Row::get. -/
def Row.get_date (c : Column) : Except PgError date_t :=
  read_typed read_date DATEOID c ⟨0⟩

/-- Embeds the timestamptz_t specialization of Row::get. -/
def Row.get_timestamptz (c : Column) : Except PgError timestamptz_t :=
  read_typed read_timestamptz TIMESTAMPTZOID c ⟨0⟩

/-- Embeds the timestamp_t specialization of Row::get. -/
def Row.get_timestamp (c : Column) : Except PgError timestamp_t :=
  read_typed read_timestamp TIMESTAMPOID c ⟨0⟩

/-- Embeds the timetz_t specialization of Row::get. -/
def Row.get_timetz (c : Column) : Except PgError timetz_t :=
  read_typed read_timetz TIMETZOID c ⟨0, 0⟩

/-- Embeds the time_t specialization of Row::get. -/
def Row.get_time (c : Column) : Except PgError time_t :=
  read_typed read_time TIMEOID c ⟨0⟩

/-- Embeds the interval_t specialization of Row::get. -/
def Row.get_interval (c : Column) : Except PgError interval_t :=
  read_typed read_interval INTERVALOID c ⟨0, 0, 0⟩

-- ---------------------------------------------------------------------------
-- One-dimensional array decode
-- ---------------------------------------------------------------------------

/-- Embeds the element loop of readArray: size iterations, each reading an
int32 length prefix; a prefix of -1 substitutes the caller default, otherwise
the element is decoded at its fixed width (the prefix value itself is not used
for the read). -/
def readArrayLoop {α : Type} (rd : List Nat → Option (α × List Nat)) (defVal : α) :
    Nat → List Nat → Option (List α × List Nat)
  | 0, buf => some ([], buf)
  | n + 1, buf =>
    match read_int32 buf with
    | none => none
    | some (elemSize, b1) =>
      if elemSize = -1 then
        match readArrayLoop rd defVal n b1 with
        | none => none
        | some (l, b) => some (defVal :: l, b)
      else
        match rd b1 with
        | none => none
        | some (v, b2) =>
          match readArrayLoop rd defVal n b2 with
          | none => none
          | some (l, b) => some (v :: l, b)

/-- Embeds readArray(pgresult, oid, column, defVal): null test first (null
column decodes to the empty vector), then the header reads ndim / ign /
elemtype, assert_oid on the wire element tag, the assert on ndim == 1, the
first-dimension size and index reads, and the element loop. -/
def readArray {α : Type} (rd : List Nat → Option (α × List Nat)) (oid : Int)
    (c : Column) (defVal : α) : Except PgError (List α) :=
  if pqGetIsNull c then .ok [] else
    match read_int32 (pqGetValue c) with
    | none => .error .truncated
    | some (ndim, b1) =>
      match read_int32 b1 with
      | none => .error .truncated
      | some (_ign, b2) =>
        match read_int32 b2 with
        | none => .error .truncated
        | some (elemType, b3) =>
          match assert_oid elemType oid with
          | .error e => .error e
          | .ok _ =>
            if ndim = 1 then
              match read_int32 b3 with
              | none => .error .truncated
              | some (size, b4) =>
                match read_int32 b4 with
                | none => .error .truncated
                | some (_index, b5) =>
                  match readArrayLoop rd defVal size.toNat b5 with
                  | none => .error .truncated
                  | some (l, _) => .ok l
            else .error .unsupportedDim

/-- Embeds the bool specialization of Row::asArray. -/
def Row.asArray_bool (c : Column) : Except PgError (List Bool) :=
  readArray read_bool BOOLOID c false

/-- Embeds the int16_t specialization of Row::asArray. -/
def Row.asArray_int16 (c : Column) : Except PgError (List Int) :=
  readArray read_int16 INT2OID c 0

/-- Embeds the int32_t specialization of Row::asArray. -/
def Row.asArray_int32 (c : Column) : Except PgError (List Int) :=
  readArray read_int32 INT4OID c 0

-- ---------------------------------------------------------------------------
-- Spec-side wire encoders, for round-trip statements
-- ---------------------------------------------------------------------------

/-- Spec-side encoder: the byte-for-byte big-endian two-complement wire image
of a signed value on n bytes. -/
def encBE (n : Nat) (v : Int) : List Nat := natToBE n (v % 2 ^ (8 * n)).toNat

/-- Spec-side encoder: the one-byte wire image of a boolean. -/
def enc_bool (b : Bool) : List Nat := [if b then 1 else 0]

/-- Spec-side encoder: the wire image of one int32 array element; none encodes
a null element (length prefix -1), some x encodes the length prefix 4 followed
by the value bytes. -/
def encElemInt32 : Option Int → List Nat
  | none => encBE 4 (-1)
  | some x => encBE 4 4 ++ encBE 4 x

/-- Spec-side encoder: the concatenated wire images of a list of int32 array
elements. -/
def encElems : List (Option Int) → List Nat
  | [] => []
  | e :: es => encElemInt32 e ++ encElems es

-- ---------------------------------------------------------------------------
-- Result stream state machine
-- ---------------------------------------------------------------------------

/-- The libpq result statuses the source handles. -/
inductive PGStatus where
  | emptyQuery
  | commandOk
  | tuplesOk
  | singleTuple
  | badResponse
  | fatalError
  | otherStatus
deriving DecidableEq

/-- One server response message: its status and its tuple count. -/
structure Msg where
  status : PGStatus
  ntuples : Nat
deriving DecidableEq

/-- The connection collaborator: the pending protocol messages PQgetResult
will deliver in order (none once exhausted), the most recent server diagnostic
text, and whether an out-of-band cancellation was issued. -/
structure Conn where
  pending : List Msg
  lastError : String
  cancelRequested : Bool
deriving DecidableEq

/-- PQgetResult: pop the next pending message, or null when the request is
fully consumed. -/
def pqGetResult (c : Conn) : Option Msg × Conn :=
  match c.pending with
  | [] => (none, c)
  | m :: rest => (some m, { c with pending := rest })

/-- The mutable state of a Result: the currently held PGresult (none models
the null pointer), the status of the last fetch, and the 1-based row
counter. -/
structure ResultState where
  pgresult : Option Msg
  status : PGStatus
  num : Nat
deriving DecidableEq

/-- The body of Result::next after the initial assert: fetch the next message,
record its status, and dispatch on it (row counter bump on a single tuple,
asserts on the tuple counts, ExecutionException on a fatal or bad-response
status, abort on an unexpected status or a null result). -/
def Result.fetch (s : ResultState) (c : Conn) : ResultState × Conn × Option PgError :=
  match pqGetResult c with
  | (none, c1) => ({ s with pgresult := none }, c1, some .assertFailed)
  | (some m, c1) =>
    match m.status with
    | .singleTuple =>
      if m.ntuples = 1 then (⟨some m, .singleTuple, s.num + 1⟩, c1, none)
      else (⟨some m, .singleTuple, s.num⟩, c1, some .assertFailed)
    | .tuplesOk =>
      if m.ntuples = 0 then (⟨some m, .tuplesOk, s.num⟩, c1, none)
      else (⟨some m, .tuplesOk, s.num⟩, c1, some .assertFailed)
    | .badResponse => (⟨some m, .badResponse, s.num⟩, c1, some (.executionFailed c1.lastError))
    | .fatalError => (⟨some m, .fatalError, s.num⟩, c1, some (.executionFailed c1.lastError))
    | .commandOk => (⟨some m, .commandOk, s.num⟩, c1, none)
    | _ => (⟨some m, m.status, s.num⟩, c1, some .assertFailed)

/-- Embeds Result::next: when a result is held it must have single-tuple
status (assert) and is released, then the next message is fetched. The third
component is the raised error, none on success. -/
def Result.next (s : ResultState) (c : Conn) : ResultState × Conn × Option PgError :=
  match s.pgresult with
  | some _ =>
    if s.status = PGStatus.singleTuple then Result.fetch s c
    else (s, c, some .assertFailed)
  | none => Result.fetch s c

/-- Embeds Result::first: asserts that no result is held yet, resets the row
counter and performs the first fetch. -/
def Result.first (s : ResultState) (c : Conn) : ResultState × Conn × Option PgError :=
  match s.pgresult with
  | some _ => (s, c, some .assertFailed)
  | none => Result.next { s with num := 0 } c

/-- Which of the two sentinel row objects an iterator points at. -/
inductive IterPtr where
  | beginPtr
  | endPtr
deriving DecidableEq

/-- Embeds Result::begin: always the begin sentinel. -/
def Result.beginIter (_s : ResultState) : IterPtr := .beginPtr

/-- Embeds Result::end: the end sentinel while positioned on a single tuple,
otherwise the begin sentinel, so that iteration is empty. -/
def Result.endIter (s : ResultState) : IterPtr :=
  if s.status = PGStatus.singleTuple then .endPtr else .beginPtr

/-- Embeds the iterator pre-increment: advance via Result::next; if the new
status is not single-tuple it must be tuples-ok (assert) and the iterator
becomes the end sentinel. -/
def Result.iterInc (s : ResultState) (c : Conn) :
    IterPtr × ResultState × Conn × Option PgError :=
  match Result.next s c with
  | (s1, c1, some e) => (.beginPtr, s1, c1, some e)
  | (s1, c1, none) =>
    if s1.status = PGStatus.singleTuple then (.beginPtr, s1, c1, none)
    else if s1.status = PGStatus.tuplesOk then (.endPtr, s1, c1, none)
    else (.beginPtr, s1, c1, some .assertFailed)

/-- Embeds the do-while drain loop of the COMMAND_OK branch of Result::clear:
release the held result, fetch the next message, and keep looping until
PQgetResult returns null (EMPTY_QUERY); a fatal or bad-response status throws
out of the loop at once, leaving the remaining messages pending. -/
def clearLoopAux (num : Nat) (le : String) (cr : Bool) :
    List Msg → ResultState × Conn × Option PgError
  | [] => (⟨none, .emptyQuery, num⟩, ⟨[], le, cr⟩, none)
  | m :: rest =>
    match m.status with
    | .badResponse => (⟨some m, .badResponse, num⟩, ⟨rest, le, cr⟩, some (.executionFailed le))
    | .fatalError => (⟨some m, .fatalError, num⟩, ⟨rest, le, cr⟩, some (.executionFailed le))
    | _ => clearLoopAux num le cr rest

/-- Embeds Result::clear, dispatching on the current status: the COMMAND_OK
drain loop; the single fetch expected to be null after BAD_RESPONSE /
FATAL_ERROR / TUPLES_OK; the abandoned-stream handling after SINGLE_TUPLE
(one advance, then either a cancellation request or the final null fetch);
a no-op on EMPTY_QUERY and on unexpected statuses. -/
def Result.clear (s : ResultState) (c : Conn) : ResultState × Conn × Option PgError :=
  match s.status with
  | .commandOk => clearLoopAux s.num c.lastError c.cancelRequested c.pending
  | .badResponse | .fatalError | .tuplesOk =>
    match pqGetResult c with
    | (none, c1) => (⟨none, .emptyQuery, s.num⟩, c1, none)
    | (some m, c1) => (⟨some m, s.status, s.num⟩, c1, some .assertFailed)
  | .singleTuple =>
    match Result.next s c with
    | (s1, c1, some e) => (s1, c1, some e)
    | (s1, c1, none) =>
      if s1.status = PGStatus.singleTuple then
        (s1, { c1 with cancelRequested := true }, some .assertFailed)
      else if s1.status = PGStatus.tuplesOk then
        match pqGetResult c1 with
        | (none, c2) => (⟨none, .emptyQuery, s1.num⟩, c2, none)
        | (some m, c2) => (⟨some m, .emptyQuery, s1.num⟩, c2, some .assertFailed)
      else (s1, c1, some .assertFailed)
  | .emptyQuery => (s, c, none)
  | .otherStatus => (s, c, none)

-- ---------------------------------------------------------------------------
-- Helper lemmas about the wire reader and the spec-side encoders
-- ---------------------------------------------------------------------------

theorem natToBE_length (n v : Nat) : (natToBE n v).length = n := by
  induction n generalizing v with
  | zero => rfl
  | succ n ih => simp [natToBE, ih]

theorem encBE_length (n : Nat) (v : Int) : (encBE n v).length = n := by
  simp [encBE, natToBE_length]

theorem foldl_natToBE (n : Nat) : ∀ v acc : Nat,
    List.foldl (fun a b => a * 256 + b) acc (natToBE n v) = acc * 256 ^ n + v % 256 ^ n := by
  induction n with
  | zero => intro v acc; simp [natToBE, Nat.mod_one]
  | succ n ih =>
    intro v acc
    have hsplit : v % 256 ^ (n + 1) = v % 256 + 256 * (v / 256 % 256 ^ n) := by
      rw [pow_succ, Nat.mul_comm (256 ^ n) 256, Nat.mod_mul]
    simp only [natToBE, List.foldl_append, List.foldl_cons, List.foldl_nil, ih]
    rw [hsplit, pow_succ]
    ring

theorem readBEAux_append (xs : List Nat) : ∀ (acc : Nat) (rest : List Nat),
    readBEAux xs.length acc (xs ++ rest)
      = some (List.foldl (fun a b => a * 256 + b) acc xs, rest) := by
  induction xs with
  | nil => intro acc rest; rfl
  | cons x xs ih =>
    intro acc rest
    simp only [List.length_cons, List.cons_append, readBEAux, List.foldl_cons]
    exact ih (acc * 256 + x) rest

theorem readBE_natToBE (n u : Nat) (rest : List Nat) :
    readBE n (natToBE n u ++ rest) = some (twosComp (8 * n) (u % 256 ^ n), rest) := by
  have h := readBEAux_append (natToBE n u) 0 rest
  rw [natToBE_length, foldl_natToBE] at h
  simp only [readBE, h]
  norm_num

theorem readBE_encBE (n : Nat) (v : Int) (rest : List Nat) :
    readBE n (encBE n v ++ rest) = some (twosComp (8 * n) (v % 2 ^ (8 * n)).toNat, rest) := by
  have hpow : (256 : Nat) ^ n = 2 ^ (8 * n) := by
    rw [show (256 : Nat) = 2 ^ 8 from rfl, ← pow_mul]
  have hlt : (v % 2 ^ (8 * n)).toNat < 2 ^ (8 * n) := by
    have h2 : (0 : Int) < 2 ^ (8 * n) := by positivity
    have h3 := Int.emod_lt_of_pos v h2
    have h4 := Int.emod_nonneg v (ne_of_gt h2)
    have hcast : ((2 ^ (8 * n) : Nat) : Int) = 2 ^ (8 * n) := by push_cast; ring
    omega
  rw [encBE, readBE_natToBE]
  rw [hpow, Nat.mod_eq_of_lt hlt]

theorem read_int16_enc (v : Int) (h1 : -32768 ≤ v) (h2 : v < 32768) (rest : List Nat) :
    read_int16 (encBE 2 v ++ rest) = some (v, rest) := by
  have h := readBE_encBE 2 v rest
  rw [read_int16, h]
  have : twosComp (8 * 2) (v % 2 ^ (8 * 2)).toNat = v := by
    simp only [twosComp]
    norm_num
    split <;> omega
  rw [this]

theorem read_int32_enc (v : Int) (h1 : -2147483648 ≤ v) (h2 : v < 2147483648)
    (rest : List Nat) : read_int32 (encBE 4 v ++ rest) = some (v, rest) := by
  have h := readBE_encBE 4 v rest
  rw [read_int32, h]
  have : twosComp (8 * 4) (v % 2 ^ (8 * 4)).toNat = v := by
    simp only [twosComp]
    norm_num
    split <;> omega
  rw [this]

theorem read_int64_enc (v : Int) (h1 : -9223372036854775808 ≤ v)
    (h2 : v < 9223372036854775808) (rest : List Nat) :
    read_int64 (encBE 8 v ++ rest) = some (v, rest) := by
  have h := readBE_encBE 8 v rest
  rw [read_int64, h]
  have : twosComp (8 * 8) (v % 2 ^ (8 * 8)).toNat = v := by
    simp only [twosComp]
    norm_num
    split <;> omega
  rw [this]

theorem read_bool_enc (b : Bool) (rest : List Nat) :
    read_bool (enc_bool b ++ rest) = some (b, rest) := by
  cases b <;> rfl

theorem readArrayLoop_encElems (defVal : Int) (elems : List (Option Int)) :
    ∀ junk : List Nat,
      (∀ x : Int, some x ∈ elems → -2147483648 ≤ x ∧ x < 2147483648) →
      readArrayLoop read_int32 defVal elems.length (encElems elems ++ junk)
        = some (elems.map (fun e => e.getD defVal), junk) := by
  induction elems with
  | nil => intro junk _; rfl
  | cons e es ih =>
    intro junk h
    have hes : ∀ x : Int, some x ∈ es → -2147483648 ≤ x ∧ x < 2147483648 :=
      fun x hx => h x (by simp [hx])
    cases e with
    | none =>
      have h1 := read_int32_enc (-1) (by norm_num) (by norm_num) (encElems es ++ junk)
      simp only [encElems, encElemInt32, List.length_cons, List.append_assoc,
        readArrayLoop, h1, if_pos rfl, ih junk hes, List.map_cons, Option.getD_none]
      simp
    | some x =>
      have hx := h x (by simp)
      have h1 := read_int32_enc 4 (by norm_num) (by norm_num)
        (encBE 4 x ++ (encElems es ++ junk))
      have h2 := read_int32_enc x hx.1 hx.2 (encElems es ++ junk)
      simp only [encElems, encElemInt32, List.length_cons, List.append_assoc,
        readArrayLoop, h1, h2, List.map_cons, Option.getD_some]
      norm_num
      rw [ih junk hes]

theorem clearLoopAux_stops_at_error (num : Nat) (le : String) (cr : Bool)
    (pre : List Msg) :
    (∀ x ∈ pre, x.status = PGStatus.commandOk) →
    ∀ (m : Msg), m.status = PGStatus.badResponse ∨ m.status = PGStatus.fatalError →
    ∀ rest : List Msg,
      clearLoopAux num le cr (pre ++ m :: rest)
        = (⟨some m, m.status, num⟩, ⟨rest, le, cr⟩, some (.executionFailed le)) := by
  induction pre with
  | nil =>
    intro _ m hm rest
    rcases hm with h | h <;> simp [clearLoopAux, h]
  | cons x pre ih =>
    intro hpre m hm rest
    have hx : x.status = PGStatus.commandOk := hpre x (by simp)
    simp only [List.cons_append, clearLoopAux, hx]
    exact ih (fun y hy => hpre y (by simp [hy])) m hm rest

-- ---------------------------------------------------------------------------
-- Claim theorems
-- ---------------------------------------------------------------------------

/-- Claim C4: the temporal decoders compute exactly the documented values --
date = (wire int32 + the Unix-to-Y2000 day offset) * 86400 seconds;
timestamp and timestamp-with-zone = wire int64 + the Unix-to-Y2000
microsecond offset; time = the raw wire int64 unchanged; time-with-zone =
a wire int64 of microseconds followed by a wire int32 zone offset; interval =
a wire int64 of microseconds followed by two wire int32 fields read in the
order days then months -- for every in-range wire value. -/
theorem C4_theorem (d ts tm z dy mo : Int) (r1 r2 r3 r4 r5 r6 : List Nat)
    (hd1 : -2147483648 ≤ d) (hd2 : d < 2147483648)
    (hts1 : -9223372036854775808 ≤ ts) (hts2 : ts < 9223372036854775808)
    (htm1 : -9223372036854775808 ≤ tm) (htm2 : tm < 9223372036854775808)
    (hz1 : -2147483648 ≤ z) (hz2 : z < 2147483648)
    (hdy1 : -2147483648 ≤ dy) (hdy2 : dy < 2147483648)
    (hmo1 : -2147483648 ≤ mo) (hmo2 : mo < 2147483648) :
    read_date (encBE 4 d ++ r1)
      = some (⟨(d + DAYS_UNIX_TO_J2000_EPOCH) * 86400⟩, r1) ∧
    read_timestamp (encBE 8 ts ++ r2)
      = some (⟨ts + MICROSEC_UNIX_TO_J2000_EPOCH⟩, r2) ∧
    read_timestamptz (encBE 8 ts ++ r3)
      = some (⟨ts + MICROSEC_UNIX_TO_J2000_EPOCH⟩, r3) ∧
    read_time (encBE 8 tm ++ r4) = some (⟨tm⟩, r4) ∧
    read_timetz (encBE 8 tm ++ (encBE 4 z ++ r5)) = some (⟨tm, z⟩, r5) ∧
    read_interval (encBE 8 tm ++ (encBE 4 dy ++ (encBE 4 mo ++ r6)))
      = some (⟨tm, dy, mo⟩, r6) := by
  refine ⟨?_, ?_, ?_, ?_, ?_, ?_⟩
  · simp [read_date, read_int32_enc d hd1 hd2 r1]
  · simp [read_timestamp, read_int64_enc ts hts1 hts2 r2]
  · simp [read_timestamptz, read_int64_enc ts hts1 hts2 r3]
  · simp [read_time, read_int64_enc tm htm1 htm2 r4]
  · simp [read_timetz, read_int64_enc tm htm1 htm2 (encBE 4 z ++ r5),
      read_int32_enc z hz1 hz2 r5]
  · simp [read_interval, read_int64_enc tm htm1 htm2 (encBE 4 dy ++ (encBE 4 mo ++ r6)),
      read_int32_enc dy hdy1 hdy2 (encBE 4 mo ++ r6), read_int32_enc mo hmo1 hmo2 r6]

/-- Claim C4 witness: the theorem applied at concrete wire values, including
the wire value 0 for date (the Y2000 epoch, 946684800 seconds after the Unix
epoch). -/
theorem C4_witness :
    read_date (encBE 4 0 ++ []) = some (⟨946684800⟩, []) ∧
    read_interval (encBE 8 50 ++ (encBE 4 3 ++ (encBE 4 2 ++ [9])))
      = some (⟨50, 3, 2⟩, [9]) := by
  have h := C4_theorem 0 0 50 0 3 2 [] [] [] [] [] [9]
    (by decide) (by decide) (by decide) (by decide) (by decide) (by decide)
    (by decide) (by decide) (by decide) (by decide) (by decide) (by decide)
  exact ⟨h.1, h.2.2.2.2.2⟩

/-- Claim C5: for every supported fixed-width scalar type (bool as one byte,
int16/int32/int64 as big-endian two-complement, float/double as the bit
pattern of the corresponding big-endian integer read) and every in-range
value, decoding the byte-for-byte big-endian wire encoding of the value
yields exactly the value, and the cursor advances by the size of the type
(the encoding has exactly that many bytes and the returned remainder is the
untouched tail). -/
theorem C5_theorem (b : Bool) (v16 v32 v64 : Int) (f : float32) (g : float64)
    (r0 r1 r2 r3 r4 r5 : List Nat)
    (h16a : -32768 ≤ v16) (h16b : v16 < 32768)
    (h32a : -2147483648 ≤ v32) (h32b : v32 < 2147483648)
    (h64a : -9223372036854775808 ≤ v64) (h64b : v64 < 9223372036854775808)
    (hfa : -2147483648 ≤ f.bits) (hfb : f.bits < 2147483648)
    (hga : -9223372036854775808 ≤ g.bits) (hgb : g.bits < 9223372036854775808) :
    ((enc_bool b).length = 1 ∧ read_bool (enc_bool b ++ r0) = some (b, r0)) ∧
    ((encBE 2 v16).length = 2 ∧ read_int16 (encBE 2 v16 ++ r1) = some (v16, r1)) ∧
    ((encBE 4 v32).length = 4 ∧ read_int32 (encBE 4 v32 ++ r2) = some (v32, r2)) ∧
    ((encBE 8 v64).length = 8 ∧ read_int64 (encBE 8 v64 ++ r3) = some (v64, r3)) ∧
    read_float (encBE 4 f.bits ++ r4) = some (f, r4) ∧
    read_double (encBE 8 g.bits ++ r5) = some (g, r5) := by
  obtain ⟨fb⟩ := f
  obtain ⟨gb⟩ := g
  refine ⟨⟨by cases b <;> rfl, read_bool_enc b r0⟩,
    ⟨encBE_length 2 v16, read_int16_enc v16 h16a h16b r1⟩,
    ⟨encBE_length 4 v32, read_int32_enc v32 h32a h32b r2⟩,
    ⟨encBE_length 8 v64, read_int64_enc v64 h64a h64b r3⟩, ?_, ?_⟩
  · simp [read_float, read_int32_enc fb hfa hfb r4]
  · simp [read_double, read_int64_enc gb hga hgb r5]

/-- Claim C5 witness: the round trip evaluated at concrete values of each
width, including negative values exercising the two-complement encoding. -/
theorem C5_witness :
    read_int16 (encBE 2 (-2) ++ [7]) = some (-2, [7]) ∧
    read_int64 (encBE 8 (-5000000000) ++ []) = some (-5000000000, []) ∧
    read_float (encBE 4 1078530011 ++ []) = some (⟨1078530011⟩, []) := by
  have h := C5_theorem true (-2) 100000 (-5000000000) ⟨1078530011⟩ ⟨-1⟩
    [] [7] [] [] [] []
    (by decide) (by decide) (by decide) (by decide) (by decide) (by decide)
    (by decide) (by decide) (by decide) (by decide)
  exact ⟨h.2.1.2, h.2.2.2.1.2, h.2.2.2.2.1⟩

/-- Claim C10: whenever the stream status is not positioned-on-a-single-tuple,
Result::end returns an iterator equal to Result::begin, so range-based
iteration executes the loop body zero times. -/
theorem C10_theorem (s : ResultState) (h : s.status ≠ PGStatus.singleTuple) :
    Result.endIter s = Result.beginIter s := by
  simp [Result.endIter, Result.beginIter, h]

/-- Claim C10 witness: the theorem applied to a command-only stream state. -/
theorem C10_witness :
    Result.endIter ⟨none, PGStatus.commandOk, 0⟩
      = Result.beginIter ⟨none, PGStatus.commandOk, 0⟩ :=
  C10_theorem ⟨none, PGStatus.commandOk, 0⟩ (by decide)

/-- Claim C7 counterexample: at the terminal exhausted state (the zero-row
TUPLES_OK result is held), a further Result::next does not report "no row
without error": it fails the assert that the stream is positioned on a single
tuple, and the iterator pre-increment fails the same way instead of staying
equal to the end iterator. -/
theorem C7_counterexample :
    Result.next ⟨some ⟨PGStatus.tuplesOk, 0⟩, PGStatus.tuplesOk, 3⟩ ⟨[], "", false⟩
      = (⟨some ⟨PGStatus.tuplesOk, 0⟩, PGStatus.tuplesOk, 3⟩, ⟨[], "", false⟩,
          some PgError.assertFailed) ∧
    Result.iterInc ⟨some ⟨PGStatus.tuplesOk, 0⟩, PGStatus.tuplesOk, 3⟩ ⟨[], "", false⟩
      = (IterPtr.beginPtr, ⟨some ⟨PGStatus.tuplesOk, 0⟩, PGStatus.tuplesOk, 3⟩,
          ⟨[], "", false⟩, some PgError.assertFailed) :=
  ⟨rfl, rfl⟩

/-- Claim C7 as amended: once the stream holds a result whose status is not
single-tuple (in particular the exhausted zero-row TUPLES_OK state), every
further advance -- Result::next or the iterator pre-increment -- fails the
assert that the stream is positioned on a single tuple (a debug-build abort,
modelled as the assertFailed error) without fetching, leaving the stream and
connection state otherwise unchanged; advancement after exhaustion is a
contract violation, not an idempotent no-row report. -/
theorem C7_theorem (s : ResultState) (c : Conn) (m : Msg)
    (hres : s.pgresult = some m) (hst : s.status ≠ PGStatus.singleTuple) :
    Result.next s c = (s, c, some PgError.assertFailed) ∧
    Result.iterInc s c = (IterPtr.beginPtr, s, c, some PgError.assertFailed) := by
  have h1 : Result.next s c = (s, c, some PgError.assertFailed) := by
    simp [Result.next, hres, hst]
  exact ⟨h1, by simp [Result.iterInc, h1]⟩

/-- Claim C7 witness: the amended theorem applied at a concrete exhausted
state. -/
theorem C7_witness :
    Result.next ⟨some ⟨PGStatus.tuplesOk, 0⟩, PGStatus.tuplesOk, 7⟩ ⟨[], "x", true⟩
      = (⟨some ⟨PGStatus.tuplesOk, 0⟩, PGStatus.tuplesOk, 7⟩, ⟨[], "x", true⟩,
          some PgError.assertFailed) :=
  (C7_theorem ⟨some ⟨PGStatus.tuplesOk, 0⟩, PGStatus.tuplesOk, 7⟩ ⟨[], "x", true⟩
    ⟨PGStatus.tuplesOk, 0⟩ rfl (by decide)).1

/-- Claim C9: whenever a fetch performed by Result::first or Result::next
receives a message whose status is fatal-error or bad-response, the operation
raises the execution-failed error carrying the most recent connection
diagnostic text and yields no row (the row counter is not advanced and the
outcome is the single error result, not a row or an end-of-stream report). -/
theorem C9_theorem (s : ResultState) (c : Conn) (m : Msg) (rest : List Msg)
    (hpend : c.pending = m :: rest)
    (hm : m.status = PGStatus.badResponse ∨ m.status = PGStatus.fatalError) :
    (s.pgresult = none →
      Result.first s c
        = (⟨some m, m.status, 0⟩, ⟨rest, c.lastError, c.cancelRequested⟩,
            some (PgError.executionFailed c.lastError))) ∧
    ((s.pgresult = none ∨ s.status = PGStatus.singleTuple) →
      Result.next s c
        = (⟨some m, m.status, s.num⟩, ⟨rest, c.lastError, c.cancelRequested⟩,
            some (PgError.executionFailed c.lastError))) := by
  obtain ⟨p, le, cr⟩ := c
  simp only at hpend
  subst hpend
  have hf : ∀ t : ResultState,
      Result.fetch t ⟨m :: rest, le, cr⟩
        = (⟨some m, m.status, t.num⟩, ⟨rest, le, cr⟩,
            some (PgError.executionFailed le)) := by
    intro t
    rcases hm with h | h <;> simp [Result.fetch, pqGetResult, h]
  constructor
  · intro h0
    have hnext : Result.next ⟨none, s.status, 0⟩ ⟨m :: rest, le, cr⟩
        = (⟨some m, m.status, 0⟩, ⟨rest, le, cr⟩,
            some (PgError.executionFailed le)) := by
      simp [Result.next, hf]
    simp [Result.first, h0, hnext]
  · intro h
    rcases h with h0 | hst
    · simp [Result.next, h0, hf]
    · cases hsp : s.pgresult with
      | none => simp [Result.next, hsp, hf]
      | some mm => simp [Result.next, hsp, hst, hf]

/-- Claim C9 witness: the theorem applied at a concrete fatal-error fetch from
a fresh stream. -/
theorem C9_witness :
    Result.first ⟨none, PGStatus.emptyQuery, 5⟩ ⟨[⟨PGStatus.fatalError, 0⟩], "boom", false⟩
      = (⟨some ⟨PGStatus.fatalError, 0⟩, PGStatus.fatalError, 0⟩, ⟨[], "boom", false⟩,
          some (PgError.executionFailed "boom")) :=
  (C9_theorem ⟨none, PGStatus.emptyQuery, 5⟩ ⟨[⟨PGStatus.fatalError, 0⟩], "boom", false⟩
    ⟨PGStatus.fatalError, 0⟩ [] rfl (Or.inr rfl)).1 rfl

/-- Claim C3 counterexample: during a COMMAND_OK drain, the first fatal-error
message makes Result::clear throw at once; the remaining pending message is
left unread (the no-more-results sentinel is never observed), contradicting
the claim that the stream continues fetching and discarding all remaining
messages. -/
theorem C3_counterexample :
    Result.clear ⟨some ⟨PGStatus.commandOk, 0⟩, PGStatus.commandOk, 0⟩
        ⟨[⟨PGStatus.fatalError, 0⟩, ⟨PGStatus.commandOk, 0⟩], "server failure", false⟩
      = (⟨some ⟨PGStatus.fatalError, 0⟩, PGStatus.fatalError, 0⟩,
          ⟨[⟨PGStatus.commandOk, 0⟩], "server failure", false⟩,
          some (PgError.executionFailed "server failure")) ∧
    (Result.clear ⟨some ⟨PGStatus.commandOk, 0⟩, PGStatus.commandOk, 0⟩
        ⟨[⟨PGStatus.fatalError, 0⟩, ⟨PGStatus.commandOk, 0⟩], "server failure", false⟩).2.1.pending
      ≠ [] :=
  ⟨rfl, by decide⟩

/-- Claim C3 as amended: when a fatal-error or bad-response message is
encountered while draining a multi-statement result (the COMMAND_OK branch of
Result::clear), the drain raises the first such error immediately and stops
fetching: the error surfaced is indeed the first one encountered, but the
messages after it remain pending on the connection and the no-more-results
sentinel is not awaited, so the connection is not returned to a request-able
state by clear itself. -/
theorem C3_theorem (s : ResultState) (hs : s.status = PGStatus.commandOk)
    (pre : List Msg) (hpre : ∀ x ∈ pre, x.status = PGStatus.commandOk)
    (m : Msg) (hm : m.status = PGStatus.badResponse ∨ m.status = PGStatus.fatalError)
    (rest : List Msg) (le : String) (cr : Bool) :
    Result.clear s ⟨pre ++ m :: rest, le, cr⟩
      = (⟨some m, m.status, s.num⟩, ⟨rest, le, cr⟩,
          some (PgError.executionFailed le)) := by
  simp only [Result.clear, hs]
  exact clearLoopAux_stops_at_error s.num le cr pre hpre m hm rest

/-- Claim C3 witness: the amended theorem applied at a concrete drain with one
COMMAND_OK message before the error and one message after it. -/
theorem C3_witness :
    Result.clear ⟨some ⟨PGStatus.commandOk, 0⟩, PGStatus.commandOk, 2⟩
        ⟨[⟨PGStatus.commandOk, 0⟩, ⟨PGStatus.badResponse, 0⟩, ⟨PGStatus.tuplesOk, 0⟩],
          "first error", false⟩
      = (⟨some ⟨PGStatus.badResponse, 0⟩, PGStatus.badResponse, 2⟩,
          ⟨[⟨PGStatus.tuplesOk, 0⟩], "first error", false⟩,
          some (PgError.executionFailed "first error")) := by
  have h := C3_theorem ⟨some ⟨PGStatus.commandOk, 0⟩, PGStatus.commandOk, 2⟩ rfl
    [⟨PGStatus.commandOk, 0⟩] (by decide) ⟨PGStatus.badResponse, 0⟩ (Or.inl rfl)
    [⟨PGStatus.tuplesOk, 0⟩] "first error" false
  exact h

/-- Claim C8: for every non-null array column whose header declares a
dimension count different from 1 (with a matching element type tag, so that
the tag check passes first), the array decode reports the
unsupported-dimensionality error (the failing ndim == 1 assert of the debug
build, which is the default configuration) rather than decoding anything. -/
theorem C8_theorem (c : Column) (nd g : Int) (tail : List Nat)
    (hnull : c.null = false)
    (hnd1 : -2147483648 ≤ nd) (hnd2 : nd < 2147483648)
    (hg1 : -2147483648 ≤ g) (hg2 : g < 2147483648)
    (hb : c.bytes = encBE 4 nd ++ (encBE 4 g ++ (encBE 4 INT4OID ++ tail)))
    (hnd : nd ≠ 1) :
    Row.asArray_int32 c = Except.error PgError.unsupportedDim := by
  have h1 := read_int32_enc nd hnd1 hnd2 (encBE 4 g ++ (encBE 4 INT4OID ++ tail))
  have h2 := read_int32_enc g hg1 hg2 (encBE 4 INT4OID ++ tail)
  have h3 := read_int32_enc INT4OID (by decide) (by decide) tail
  simp only [Row.asArray_int32, readArray, pqGetIsNull, hnull, pqGetValue, hb,
    Bool.false_eq_true, if_false]
  rw [h1]
  simp only []
  rw [h2]
  simp only []
  rw [h3]
  simp only [assert_oid, if_pos rfl]
  simp [hnd]

/-- Claim C8 witness: the theorem applied at a concrete two-dimensional array
header. -/
theorem C8_witness :
    Row.asArray_int32 ⟨1007, false, encBE 4 2 ++ (encBE 4 0 ++ (encBE 4 INT4OID ++ []))⟩
      = Except.error PgError.unsupportedDim :=
  C8_theorem ⟨1007, false, encBE 4 2 ++ (encBE 4 0 ++ (encBE 4 INT4OID ++ []))⟩ 2 0 []
    rfl (by decide) (by decide) (by decide) (by decide) rfl (by decide)

theorem readArray_int32_enc (defVal : Int) (c : Column) (g idx : Int)
    (elems : List (Option Int)) (junk : List Nat)
    (hnull : c.null = false)
    (hg1 : -2147483648 ≤ g) (hg2 : g < 2147483648)
    (hidx1 : -2147483648 ≤ idx) (hidx2 : idx < 2147483648)
    (hlen : (elems.length : Int) < 2147483648)
    (helems : ∀ x : Int, some x ∈ elems → -2147483648 ≤ x ∧ x < 2147483648)
    (hb : c.bytes = encBE 4 1 ++ (encBE 4 g ++ (encBE 4 INT4OID ++
      (encBE 4 (elems.length : Int) ++ (encBE 4 idx ++ (encElems elems ++ junk)))))) :
    readArray read_int32 INT4OID c defVal
      = Except.ok (elems.map (fun e => e.getD defVal)) := by
  have h1 := read_int32_enc 1 (by decide) (by decide)
    (encBE 4 g ++ (encBE 4 INT4OID ++
      (encBE 4 (elems.length : Int) ++ (encBE 4 idx ++ (encElems elems ++ junk)))))
  have h2 := read_int32_enc g hg1 hg2
    (encBE 4 INT4OID ++
      (encBE 4 (elems.length : Int) ++ (encBE 4 idx ++ (encElems elems ++ junk))))
  have h3 := read_int32_enc INT4OID (by decide) (by decide)
    (encBE 4 (elems.length : Int) ++ (encBE 4 idx ++ (encElems elems ++ junk)))
  have h4 := read_int32_enc (elems.length : Int) (by omega) hlen
    (encBE 4 idx ++ (encElems elems ++ junk))
  have h5 := read_int32_enc idx hidx1 hidx2 (encElems elems ++ junk)
  have h6 := readArrayLoop_encElems defVal elems junk helems
  simp only [readArray, pqGetIsNull, hnull, pqGetValue, hb,
    Bool.false_eq_true, if_false]
  rw [h1]
  simp only []
  rw [h2]
  simp only []
  rw [h3]
  simp only [assert_oid, if_pos rfl]
  rw [h4]
  simp only []
  rw [h5]
  simp only [Int.toNat_natCast]
  rw [h6]
  simp

/-- Claim C6: for every non-null one-dimensional int32 array column whose
header declares exactly the number of encoded elements, the array decode
returns a sequence of that exact length in which every element whose wire
length prefix is -1 equals the caller-provided default and every other
element is its decoded wire value, and the element loop consumes exactly the
declared elements, returning any trailing bytes untouched (no data beyond the
declared elements is read). -/
theorem C6_theorem (defVal : Int) (c : Column) (g idx : Int)
    (elems : List (Option Int)) (junk : List Nat)
    (hnull : c.null = false)
    (hg1 : -2147483648 ≤ g) (hg2 : g < 2147483648)
    (hidx1 : -2147483648 ≤ idx) (hidx2 : idx < 2147483648)
    (hlen : (elems.length : Int) < 2147483648)
    (helems : ∀ x : Int, some x ∈ elems → -2147483648 ≤ x ∧ x < 2147483648)
    (hb : c.bytes = encBE 4 1 ++ (encBE 4 g ++ (encBE 4 INT4OID ++
      (encBE 4 (elems.length : Int) ++ (encBE 4 idx ++ (encElems elems ++ junk)))))) :
    readArray read_int32 INT4OID c defVal
      = Except.ok (elems.map (fun e => e.getD defVal)) ∧
    Row.asArray_int32 c = Except.ok (elems.map (fun e => e.getD (0 : Int))) ∧
    (elems.map (fun e => e.getD defVal)).length = elems.length ∧
    readArrayLoop read_int32 defVal elems.length (encElems elems ++ junk)
      = some (elems.map (fun e => e.getD defVal), junk) := by
  refine ⟨readArray_int32_enc defVal c g idx elems junk hnull hg1 hg2 hidx1 hidx2
      hlen helems hb, ?_, by simp, readArrayLoop_encElems defVal elems junk helems⟩
  simp only [Row.asArray_int32]
  exact readArray_int32_enc 0 c g idx elems junk hnull hg1 hg2 hidx1 hidx2
    hlen helems hb

/-- Claim C6 witness: the theorem applied at a concrete three-element array
with a null middle element and two trailing junk bytes. -/
theorem C6_witness :
    Row.asArray_int32 ⟨1007, false, encBE 4 1 ++ (encBE 4 0 ++ (encBE 4 INT4OID ++
        (encBE 4 3 ++ (encBE 4 1 ++ (encElems [some 5, none, some 7] ++ [9, 9])))))⟩
      = Except.ok [5, 0, 7] := by
  have h := C6_theorem 0
    ⟨1007, false, encBE 4 1 ++ (encBE 4 0 ++ (encBE 4 INT4OID ++
      (encBE 4 3 ++ (encBE 4 1 ++ (encElems [some 5, none, some 7] ++ [9, 9])))))⟩
    0 1 [some 5, none, some 7] [9, 9] rfl (by decide) (by decide) (by decide)
    (by decide) (by decide)
    (by intro x hx; simp at hx; rcases hx with h | h <;> omega) rfl
  exact h.2.1

/-- Claim C2 counterexample: the type tag is validated before the null test,
so a null column whose server tag (BOOLOID here) differs from the requested
type makes Row::get fail with the assert_oid diagnostic instead of returning
the documented default 0. -/
theorem C2_counterexample :
    Row.get_int32 ⟨BOOLOID, true, []⟩
      = Except.error (PgError.typeMismatch "std::vector<uint_8>") ∧
    Row.get_int32 ⟨BOOLOID, true, []⟩ ≠ Except.ok 0 := by
  have h1 : Row.get_int32 ⟨BOOLOID, true, []⟩
      = Except.error (PgError.typeMismatch "std::vector<uint_8>") := rfl
  exact ⟨h1, by rw [h1]; simp⟩

/-- Claim C2 as amended: for every supported output type and every null
column, provided the column passes the type-tag validation that runs first
(its server-reported tag equals the tag of the requested type; no tag
precondition at all for get of std::string and char, and none for asArray,
whose null test precedes the header parse), Row::get returns the documented
default -- false for bool, 0 for the integer and floating types, the empty
string, the zero char, a zero-valued temporal record, the empty vector for
bytea and for arrays -- without invoking the byte decoder: the result is a
constant, independent of the column bytes. -/
theorem C2_theorem (col : Column) (hnull : col.null = true) :
    (col.oid = BOOLOID → Row.get_bool col = Except.ok false) ∧
    (col.oid = INT2OID → Row.get_int16 col = Except.ok 0) ∧
    (col.oid = INT4OID → Row.get_int32 col = Except.ok 0) ∧
    (col.oid = INT8OID → Row.get_int64 col = Except.ok 0) ∧
    (col.oid = FLOAT4OID → Row.get_float col = Except.ok ⟨0⟩) ∧
    (col.oid = FLOAT8OID → Row.get_double col = Except.ok ⟨0⟩) ∧
    Row.get_string col = Except.ok [] ∧
    Row.get_char col = Except.ok 0 ∧
    (col.oid = BYTEAOID → Row.get_bytea col = Except.ok []) ∧
    (col.oid = DATEOID → Row.get_date col = Except.ok ⟨0⟩) ∧
    (col.oid = TIMESTAMPTZOID → Row.get_timestamptz col = Except.ok ⟨0⟩) ∧
    (col.oid = TIMESTAMPOID → Row.get_timestamp col = Except.ok ⟨0⟩) ∧
    (col.oid = TIMETZOID → Row.get_timetz col = Except.ok ⟨0, 0⟩) ∧
    (col.oid = TIMEOID → Row.get_time col = Except.ok ⟨0⟩) ∧
    (col.oid = INTERVALOID → Row.get_interval col = Except.ok ⟨0, 0, 0⟩) ∧
    Row.asArray_bool col = Except.ok [] ∧
    Row.asArray_int16 col = Except.ok [] ∧
    Row.asArray_int32 col = Except.ok [] := by
  refine ⟨fun h => ?_, fun h => ?_, fun h => ?_, fun h => ?_, fun h => ?_,
    fun h => ?_, ?_, ?_, fun h => ?_, fun h => ?_, fun h => ?_, fun h => ?_,
    fun h => ?_, fun h => ?_, fun h => ?_, ?_, ?_, ?_⟩
  · simp [Row.get_bool, read_typed, assert_oid, pqFtype, pqGetIsNull, h, hnull]
  · simp [Row.get_int16, read_typed, assert_oid, pqFtype, pqGetIsNull, h, hnull]
  · simp [Row.get_int32, read_typed, assert_oid, pqFtype, pqGetIsNull, h, hnull]
  · simp [Row.get_int64, read_typed, assert_oid, pqFtype, pqGetIsNull, h, hnull]
  · simp [Row.get_float, read_typed, assert_oid, pqFtype, pqGetIsNull, h, hnull]
  · simp [Row.get_double, read_typed, assert_oid, pqFtype, pqGetIsNull, h, hnull]
  · simp [Row.get_string, pqGetIsNull, hnull]
  · simp [Row.get_char, pqGetIsNull, hnull]
  · simp [Row.get_bytea, assert_oid, pqFtype, pqGetValue, h, hnull]
  · simp [Row.get_date, read_typed, assert_oid, pqFtype, pqGetIsNull, h, hnull]
  · simp [Row.get_timestamptz, read_typed, assert_oid, pqFtype, pqGetIsNull, h, hnull]
  · simp [Row.get_timestamp, read_typed, assert_oid, pqFtype, pqGetIsNull, h, hnull]
  · simp [Row.get_timetz, read_typed, assert_oid, pqFtype, pqGetIsNull, h, hnull]
  · simp [Row.get_time, read_typed, assert_oid, pqFtype, pqGetIsNull, h, hnull]
  · simp [Row.get_interval, read_typed, assert_oid, pqFtype, pqGetIsNull, h, hnull]
  · simp [Row.asArray_bool, readArray, pqGetIsNull, hnull]
  · simp [Row.asArray_int16, readArray, pqGetIsNull, hnull]
  · simp [Row.asArray_int32, readArray, pqGetIsNull, hnull]

/-- Claim C2 witness: the amended theorem applied at a concrete null boolean
column carrying stray bytes, which the accessors never look at. -/
theorem C2_witness :
    Row.get_bool ⟨BOOLOID, true, [7]⟩ = Except.ok false ∧
    Row.get_string ⟨BOOLOID, true, [7]⟩ = Except.ok [] ∧
    Row.asArray_int32 ⟨BOOLOID, true, [7]⟩ = Except.ok [] := by
  have h := C2_theorem ⟨BOOLOID, true, [7]⟩ rfl
  exact ⟨h.1 rfl, h.2.2.2.2.2.2.1,
    h.2.2.2.2.2.2.2.2.2.2.2.2.2.2.2.2.2⟩

/-- Claim C1 counterexample: the std::string and char specializations of
Row::get perform no type-tag comparison at all -- on a column whose
server-reported tag is INT4OID (an int32 column) they decode the raw bytes
and return them, with no type-mismatch report. -/
theorem C1_counterexample :
    Row.get_string ⟨INT4OID, false, [104, 105]⟩ = Except.ok [104, 105] ∧
    Row.get_char ⟨INT4OID, false, [104]⟩ = Except.ok 104 :=
  ⟨rfl, rfl⟩

/-- Claim C1 as amended: every typed accessor except the std::string and char
specializations of Row::get compares a server-reported tag against the tag of
the requested type before decoding the value bytes -- the scalar, temporal and
bytea getters compare the column tag (PQftype), asArray compares the
element-type tag of the array wire header -- and on mismatch fails with the
assert_oid abort, whose diagnostic names only the C++ accessor type suggested
for the server tag, not both tags (an unsupported server tag aborts with no
suggestion); the std::string and char specializations decode with no tag
check whatsoever. -/
theorem C1_theorem (col acol : Column) (nd g et : Int) (tail : List Nat)
    (hnd1 : -2147483648 ≤ nd) (hnd2 : nd < 2147483648)
    (hg1 : -2147483648 ≤ g) (hg2 : g < 2147483648)
    (het1 : -2147483648 ≤ et) (het2 : et < 2147483648) :
    (col.oid ≠ BOOLOID → Row.get_bool col = Except.error (oidMismatchError col.oid)) ∧
    (col.oid ≠ INT2OID → Row.get_int16 col = Except.error (oidMismatchError col.oid)) ∧
    (col.oid ≠ INT4OID → Row.get_int32 col = Except.error (oidMismatchError col.oid)) ∧
    (col.oid ≠ INT8OID → Row.get_int64 col = Except.error (oidMismatchError col.oid)) ∧
    (col.oid ≠ FLOAT4OID → Row.get_float col = Except.error (oidMismatchError col.oid)) ∧
    (col.oid ≠ FLOAT8OID → Row.get_double col = Except.error (oidMismatchError col.oid)) ∧
    (col.oid ≠ BYTEAOID → Row.get_bytea col = Except.error (oidMismatchError col.oid)) ∧
    (col.oid ≠ DATEOID → Row.get_date col = Except.error (oidMismatchError col.oid)) ∧
    (col.oid ≠ TIMESTAMPTZOID →
      Row.get_timestamptz col = Except.error (oidMismatchError col.oid)) ∧
    (col.oid ≠ TIMESTAMPOID →
      Row.get_timestamp col = Except.error (oidMismatchError col.oid)) ∧
    (col.oid ≠ TIMETZOID → Row.get_timetz col = Except.error (oidMismatchError col.oid)) ∧
    (col.oid ≠ TIMEOID → Row.get_time col = Except.error (oidMismatchError col.oid)) ∧
    (col.oid ≠ INTERVALOID →
      Row.get_interval col = Except.error (oidMismatchError col.oid)) ∧
    Row.get_string col = Except.ok (pqGetValue col) ∧
    (col.null = false → col.bytes.length = 1 →
      Row.get_char col = Except.ok (col.bytes.headD 0)) ∧
    (acol.null = false →
      acol.bytes = encBE 4 nd ++ (encBE 4 g ++ (encBE 4 et ++ tail)) →
      et ≠ INT4OID →
      Row.asArray_int32 acol = Except.error (oidMismatchError et)) := by
  refine ⟨fun h => ?_, fun h => ?_, fun h => ?_, fun h => ?_, fun h => ?_,
    fun h => ?_, fun h => ?_, fun h => ?_, fun h => ?_, fun h => ?_,
    fun h => ?_, fun h => ?_, fun h => ?_, ?_, fun h1 h2 => ?_,
    fun hnl hb hneq => ?_⟩
  · simp [Row.get_bool, read_typed, assert_oid, pqFtype, h]
  · simp [Row.get_int16, read_typed, assert_oid, pqFtype, h]
  · simp [Row.get_int32, read_typed, assert_oid, pqFtype, h]
  · simp [Row.get_int64, read_typed, assert_oid, pqFtype, h]
  · simp [Row.get_float, read_typed, assert_oid, pqFtype, h]
  · simp [Row.get_double, read_typed, assert_oid, pqFtype, h]
  · simp [Row.get_bytea, assert_oid, pqFtype, h]
  · simp [Row.get_date, read_typed, assert_oid, pqFtype, h]
  · simp [Row.get_timestamptz, read_typed, assert_oid, pqFtype, h]
  · simp [Row.get_timestamp, read_typed, assert_oid, pqFtype, h]
  · simp [Row.get_timetz, read_typed, assert_oid, pqFtype, h]
  · simp [Row.get_time, read_typed, assert_oid, pqFtype, h]
  · simp [Row.get_interval, read_typed, assert_oid, pqFtype, h]
  · cases hc : col.null <;> simp [Row.get_string, pqGetIsNull, pqGetValue, hc]
  · simp [Row.get_char, pqGetIsNull, pqGetLength, pqGetValue, h1, h2]
  · have ha1 := read_int32_enc nd hnd1 hnd2 (encBE 4 g ++ (encBE 4 et ++ tail))
    have ha2 := read_int32_enc g hg1 hg2 (encBE 4 et ++ tail)
    have ha3 := read_int32_enc et het1 het2 tail
    simp only [Row.asArray_int32, readArray, pqGetIsNull, hnl, pqGetValue, hb,
      Bool.false_eq_true, if_false]
    rw [ha1]
    simp only []
    rw [ha2]
    simp only []
    rw [ha3]
    simp [assert_oid, hneq]

/-- Claim C1 witness: the amended theorem applied at a concrete int32 column
accessed as bool (mismatch reported with the int32_t suggestion) and at a
concrete array whose wire element tag is BOOLOID accessed as an int32 array
(mismatch reported with the bool suggestion of the table). -/
theorem C1_witness :
    Row.get_bool ⟨INT4OID, false, [1]⟩ = Except.error (oidMismatchError INT4OID) ∧
    Row.asArray_int32 ⟨1007, false, encBE 4 1 ++ (encBE 4 0 ++ (encBE 4 BOOLOID ++ []))⟩
      = Except.error (oidMismatchError BOOLOID) := by
  have h := C1_theorem ⟨INT4OID, false, [1]⟩
    ⟨1007, false, encBE 4 1 ++ (encBE 4 0 ++ (encBE 4 BOOLOID ++ []))⟩
    1 0 BOOLOID [] (by decide) (by decide) (by decide) (by decide)
    (by decide) (by decide)
  exact ⟨h.1 (by decide),
    h.2.2.2.2.2.2.2.2.2.2.2.2.2.2.2 rfl rfl (by decide)⟩
